import Mathlib

/-!
Verification development for the vyper verifier gRPC service of the
merlin-blockscout-rs repository. The handler layer is embedded from
`smart-contract-verifier-server/src/services/vyper_verifier.rs`; the parts of
the smart-contract-verifier library that the handler calls (the request
wrapper conversions, the verification pipeline, the compiler catalog and the
permit gate) are not part of the staged sources, so they are either taken as
parameters of the handler or modelled from the specification, as marked on
each definition.
-/

/-! ## Bytecode types (the prost-generated proto enum) -/

/-- Modelled from the spec: the proto `BytecodeType` enum of the request
messages, whose integer field holds `bytecode_type ∈ {Creation, Runtime}`
plus the protobuf default `UNSPECIFIED` variant. -/
inductive BytecodeType
  | unspecified
  | creationInput
  | deployedBytecode
deriving DecidableEq, Repr

/-- Modelled from the spec: the prost-generated `BytecodeType::from_i32`,
returning `none` on an integer that is not a valid enum value. -/
def BytecodeType.from_i32 (value : Int) : Option BytecodeType :=
  if value = 0 then some BytecodeType.unspecified
  else if value = 1 then some BytecodeType.creationInput
  else if value = 2 then some BytecodeType.deployedBytecode
  else none

/-- Modelled from the spec: the prost-generated string name of each variant,
used by the handler's debug logging. -/
def BytecodeType.as_str_name : BytecodeType → String
  | BytecodeType.unspecified => "BYTECODE_TYPE_UNSPECIFIED"
  | BytecodeType.creationInput => "CREATION_INPUT"
  | BytecodeType.deployedBytecode => "DEPLOYED_BYTECODE"

/-! ## Compiler versions and the catalog ordering -/

/-- Modelled from the spec: a `CompilerVersion` is a totally ordered semantic
identifier (major.minor.patch). -/
structure CompilerVersion where
  major : Nat
  minor : Nat
  patch : Nat
deriving DecidableEq, Repr

/-- Lexicographic order on semantic versions: `a` is at most `b`. -/
def CompilerVersion.le (a b : CompilerVersion) : Prop :=
  a.major < b.major ∨
    (a.major = b.major ∧
      (a.minor < b.minor ∨ (a.minor = b.minor ∧ a.patch ≤ b.patch)))

instance : DecidableRel CompilerVersion.le := fun a b => by
  unfold CompilerVersion.le
  exact inferInstance

/-- Newest-first comparison: `a` is at least as new as `b`. -/
def versionGe (a b : CompilerVersion) : Prop :=
  CompilerVersion.le b a

instance : DecidableRel versionGe := fun a b => by
  unfold versionGe
  exact inferInstance

instance : IsTotal CompilerVersion versionGe := by
  constructor
  intro a b
  unfold versionGe CompilerVersion.le
  omega

instance : IsTrans CompilerVersion versionGe := by
  constructor
  intro a b c hab hbc
  unfold versionGe CompilerVersion.le at *
  omega

/-- Rendering of a version as the catalog's version string. -/
def CompilerVersion.toStr (v : CompilerVersion) : String :=
  toString v.major ++ "." ++ toString v.minor ++ "." ++ toString v.patch

/-- Modelled from the spec: the catalog state of the library `Compilers`
object — the set of known compiler versions fetched from the manifest. -/
structure Compilers where
  versions : List CompilerVersion
deriving DecidableEq, Repr

/-- Modelled from the spec: `Compilers::all_versions_sorted_str`, which the
handler delegates to — "Exposes `list_versions_sorted()` returning versions
newest-first". -/
def Compilers.all_versions_sorted_str (c : Compilers) : List String :=
  (List.insertionSort versionGe c.versions).map CompilerVersion.toStr

/-- Modelled from the spec: the `VyperClient` facade composing the compilers
pool (the optional middleware extension is not configured here). -/
structure VyperClient where
  compilers : Compilers
deriving DecidableEq, Repr

/-- The vyper verifier service as constructed in `vyper_verifier.rs`: it owns
an `Arc<VyperClient>`. -/
structure VyperVerifierService where
  client : VyperClient
deriving DecidableEq, Repr

/-- The response message of `ListCompilerVersions`. -/
structure ListCompilerVersionsResponse where
  compiler_versions : List String
deriving DecidableEq, Repr

/-- The `list_compiler_versions` handler of `vyper_verifier.rs`: returns
`self.client.compilers().all_versions_sorted_str()`. -/
def list_compiler_versions (service : VyperVerifierService) :
    ListCompilerVersionsResponse :=
  { compiler_versions := service.client.compilers.all_versions_sorted_str }

/-! ## Request messages and their wrapper conversions -/

/-- The optional chain/address metadata attached to a request; per the spec it
is informational only. -/
structure VerificationMetadata where
  chain_id : Option String
  contract_address : Option String
deriving DecidableEq, Repr

/-- The `VerifyVyperMultiPartRequest` proto message, as read by the handler. -/
structure VerifyVyperMultiPartRequest where
  bytecode : String
  bytecode_type : Int
  compiler_version : String
  evm_version : Option String
  source_files : List (String × String)
  interfaces : List (String × String)
  metadata : Option VerificationMetadata
deriving DecidableEq, Repr

/-- The `VerifyVyperStandardJsonRequest` proto message, as read by the
handler. -/
structure VerifyVyperStandardJsonRequest where
  bytecode : String
  bytecode_type : Int
  compiler_version : String
  input : String
  metadata : Option VerificationMetadata
deriving DecidableEq, Repr

/-! ## Hex bytecode and compiler-version parsing (request validation) -/

/-- Value of one hex digit, `none` for a non-hex character. -/
def hexVal (c : Char) : Option Nat :=
  if 48 ≤ c.toNat ∧ c.toNat ≤ 57 then some (c.toNat - 48)
  else if 97 ≤ c.toNat ∧ c.toNat ≤ 102 then some (c.toNat - 87)
  else if 65 ≤ c.toNat ∧ c.toNat ≤ 70 then some (c.toNat - 55)
  else none

/-- Decode an even-length string of hex digits into bytes. -/
def hexPairsToBytes : List Char → Option (List Nat)
  | [] => some []
  | [_] => none
  | c1 :: c2 :: rest =>
    match hexVal c1, hexVal c2, hexPairsToBytes rest with
    | some h, some l, some tail => some ((16 * h + l) :: tail)
    | _, _, _ => none

/-- Drop an optional leading "0x". -/
def stripHexMarker : List Char → List Char
  | '0' :: 'x' :: rest => rest
  | l => l

/-- Modelled from the spec: the `DisplayBytes::from_str` parse applied to the
submitted bytecode by the request wrapper conversions (server types module,
absent from the staged sources): an optional 0x marker followed by an even
number of hex digits, decoded to raw bytes. -/
def parseDisplayBytes (s : String) : Option (List Nat) :=
  hexPairsToBytes (stripHexMarker s.data)

/-- Split a character list at the dots. -/
def splitDots : List Char → List (List Char)
  | [] => [[]]
  | c :: rest =>
    let r := splitDots rest
    if c = '.' then [] :: r
    else
      match r with
      | [] => [[c]]
      | h :: t => (c :: h) :: t

/-- Whether the character is a decimal digit. -/
def isDigitB (c : Char) : Bool :=
  decide (48 ≤ c.toNat ∧ c.toNat ≤ 57)

/-- Numeric value of a digit list. -/
def digitsToNat (cs : List Char) : Nat :=
  cs.foldl (fun acc c => 10 * acc + (c.toNat - 48)) 0

/-- Parse a non-empty all-digit component. -/
def parseNatComponent (cs : List Char) : Option Nat :=
  if cs ≠ [] ∧ cs.all isDigitB then some (digitsToNat cs) else none

/-- Modelled from the spec: the compiler-version parse applied to the
`compiler_version` field by the request wrapper conversions (server types
module, absent from the staged sources): an optional leading v and three
dot-separated numeric components. -/
def parseCompilerVersion (s : String) : Option CompilerVersion :=
  let cs :=
    match s.data with
    | 'v' :: rest => rest
    | l => l
  match splitDots cs with
  | [a, b, c] =>
    match parseNatComponent a, parseNatComponent b, parseNatComponent c with
    | some ma, some mi, some pa => some ⟨ma, mi, pa⟩
    | _, _, _ => none
  | _ => none

/-! ## A small JSON syntax validator (standard-json content check) -/

/-- Skip JSON whitespace. -/
def skipWs : List Char → List Char
  | c :: rest =>
    if c = ' ' ∨ c = '\n' ∨ c = '\t' ∨ c = '\r' then skipWs rest else c :: rest
  | [] => []

/-- Consume a JSON string body after the opening quote, up to and past the
closing quote. -/
def consumeJsonString : List Char → Option (List Char)
  | [] => none
  | '\\' :: _ :: rest => consumeJsonString rest
  | '"' :: rest => some rest
  | _ :: rest => consumeJsonString rest

/-- Whether the character can occur in a JSON number literal. -/
def isNumChar (c : Char) : Bool :=
  isDigitB c || decide (c = '-' ∨ c = '+' ∨ c = '.' ∨ c = 'e' ∨ c = 'E')

/-- Consume a JSON number literal (at least one digit required). -/
def consumeJsonNumber (cs : List Char) : Option (List Char) :=
  let body := cs.takeWhile isNumChar
  if body.any isDigitB then some (cs.drop body.length) else none

mutual

/-- Consume one JSON value; `none` when the input is not valid JSON. The fuel
bounds the nesting depth. -/
def consumeJsonValue (fuel : Nat) (cs : List Char) : Option (List Char) :=
  match fuel with
  | 0 => none
  | fuel + 1 =>
    match skipWs cs with
    | 'n' :: 'u' :: 'l' :: 'l' :: rest => some rest
    | 't' :: 'r' :: 'u' :: 'e' :: rest => some rest
    | 'f' :: 'a' :: 'l' :: 's' :: 'e' :: rest => some rest
    | '"' :: rest => consumeJsonString rest
    | '{' :: rest =>
      match skipWs rest with
      | '}' :: rest => some rest
      | rest => consumeJsonMembers fuel rest
    | '[' :: rest =>
      match skipWs rest with
      | ']' :: rest => some rest
      | rest => consumeJsonElements fuel rest
    | rest => consumeJsonNumber rest

/-- Consume the members of a JSON object after the opening brace, up to and
past the closing brace. -/
def consumeJsonMembers (fuel : Nat) (cs : List Char) : Option (List Char) :=
  match fuel with
  | 0 => none
  | fuel + 1 =>
    match skipWs cs with
    | '"' :: rest =>
      match consumeJsonString rest with
      | none => none
      | some rest =>
        match skipWs rest with
        | ':' :: rest =>
          match consumeJsonValue fuel rest with
          | none => none
          | some rest =>
            match skipWs rest with
            | ',' :: rest => consumeJsonMembers fuel rest
            | '}' :: rest => some rest
            | _ => none
        | _ => none
    | _ => none

/-- Consume the elements of a JSON array after the opening bracket, up to and
past the closing bracket. -/
def consumeJsonElements (fuel : Nat) (cs : List Char) : Option (List Char) :=
  match fuel with
  | 0 => none
  | fuel + 1 =>
    match consumeJsonValue fuel cs with
    | none => none
    | some rest =>
      match skipWs rest with
      | ',' :: rest => consumeJsonElements fuel rest
      | ']' :: rest => some rest
      | _ => none

end

/-- Modelled from the spec: validity of the standard-json document submitted
in the `input` field — "Standard-json input with invalid JSON syntax" is the
invalid-content case. The serde parse of the library is modelled as a JSON
syntax check. -/
def isValidJson (s : String) : Bool :=
  match consumeJsonValue (s.length + 1) s.data with
  | some rest => (skipWs rest).isEmpty
  | none => false

/-! ## The library verification request and error taxonomy -/

/-- Modelled from the spec: the multi-part content of a library verification
request (discrete named source files plus settings). -/
structure MultiFileContent where
  sources : List (String × String)
  interfaces : List (String × String)
  evm_version : Option String
deriving DecidableEq, Repr

/-- Modelled from the spec: the standard-json content of a library
verification request (one combined document). -/
structure StandardJsonContent where
  input : String
deriving DecidableEq, Repr

/-- Modelled from the spec: the library verification request the wrapper
conversions produce; only content fields, never chain/address metadata. -/
structure VerificationRequest (C : Type) where
  bytecode : List Nat
  bytecode_type : BytecodeType
  compiler_version : CompilerVersion
  content : C
deriving DecidableEq, Repr

abbrev MultiPartVerificationRequest := VerificationRequest MultiFileContent

abbrev StandardJsonVerificationRequest := VerificationRequest StandardJsonContent

/-- The `VerificationError` taxonomy of the library, as matched on by the
handlers in `vyper_verifier.rs`. -/
inductive VerificationError
  | compilation (details : String)
  | noMatchingContracts
  | compilerVersionMismatch (details : String)
  | initialization (details : String)
  | versionNotFound (version : String)
  | internal (message : String)
deriving DecidableEq, Repr

/-- Modelled from the spec: the display rendering of a `VerificationError`
(`err.to_string()` in the handlers). For the internal variant the handler
renders the wrapped error itself. -/
def VerificationError.to_string : VerificationError → String
  | VerificationError.compilation details => "Compilation error: " ++ details
  | VerificationError.noMatchingContracts =>
    "No contract could be verified with provided data"
  | VerificationError.compilerVersionMismatch details =>
    "Compiler version mismatch: " ++ details
  | VerificationError.initialization details =>
    "Initialization error: " ++ details
  | VerificationError.versionNotFound version =>
    "Compiler version not found: " ++ version
  | VerificationError.internal message => message

/-- The `StandardJsonParseError` of the server types module, as matched on by
`verify_standard_json`. -/
inductive StandardJsonParseError
  | invalidContent (details : String)
  | badRequest (details : String)
deriving DecidableEq, Repr

/-- Modelled from the spec: the display rendering of a
`StandardJsonParseError`. -/
def StandardJsonParseError.to_string : StandardJsonParseError → String
  | StandardJsonParseError.invalidContent details =>
    "content is not a valid standard json: " ++ details
  | StandardJsonParseError.badRequest details => "bad request: " ++ details

/-! ## Responses, statuses and the response wrapper -/

/-- The verification outcome status of a `VerifyResponse`. -/
inductive VerifyStatus
  | success
  | failure
deriving DecidableEq, Repr

/-- The proto string name of a status, as passed to the metrics counter. -/
def VerifyStatus.as_str_name : VerifyStatus → String
  | VerifyStatus.success => "SUCCESS"
  | VerifyStatus.failure => "FAILURE"

/-- Modelled from the spec: a successful verification result — `MatchResult`
with its match type. -/
inductive MatchType
  | fullMatch
  | partialMatch
deriving DecidableEq, Repr

/-- Modelled from the spec: the `VerificationSuccess` the library pipeline
returns on a match. -/
structure VerificationSuccess where
  match_type : MatchType
  compiler_version : CompilerVersion
  contract_name : String
  abi : String
deriving DecidableEq, Repr

/-- The `VerifyResponse` proto message. -/
structure VerifyResponse where
  message : String
  status : VerifyStatus
  result : Option VerificationSuccess
deriving DecidableEq, Repr

/-- Modelled from the spec: `VerifyResponseWrapper::ok` of the server types
module — wraps a verification success as an Ok response. -/
def VerifyResponseWrapper.ok (success : VerificationSuccess) : VerifyResponse :=
  { message := "OK", status := VerifyStatus.success, result := some success }

/-- Modelled from the spec: `VerifyResponseWrapper::err` of the server types
module — wraps any displayable error as a Failed response carrying its
message. -/
def VerifyResponseWrapper.err (message : String) : VerifyResponse :=
  { message := message, status := VerifyStatus.failure, result := none }

/-- The transport-level gRPC statuses the handlers return on the error path. -/
inductive GrpcStatus
  | invalidArgument (message : String)
  | internal (message : String)
deriving DecidableEq, Repr

/-! ## The wrapper conversions (server types module) -/

/-- Modelled from the spec: the conversion of the multi-part request wrapper
into the library verification request (`request.try_into()` in the handler;
server types module, absent from the staged sources). Only the content fields
are read — per the spec, metadata is informational only — and a malformed
required field is rejected as an invalid-argument status. -/
def tryIntoMultiPart (request : VerifyVyperMultiPartRequest) :
    Except GrpcStatus MultiPartVerificationRequest :=
  match parseDisplayBytes request.bytecode with
  | none => Except.error (GrpcStatus.invalidArgument "invalid bytecode")
  | some bytes =>
    match BytecodeType.from_i32 request.bytecode_type with
    | none => Except.error (GrpcStatus.invalidArgument "invalid bytecode type")
    | some bt =>
      match parseCompilerVersion request.compiler_version with
      | none =>
        Except.error (GrpcStatus.invalidArgument "invalid compiler version")
      | some version =>
        Except.ok
          { bytecode := bytes
            bytecode_type := bt
            compiler_version := version
            content :=
              { sources := request.source_files
                interfaces := request.interfaces
                evm_version := request.evm_version } }

/-- Modelled from the spec: the conversion of the standard-json request
wrapper into the library verification request (`request.try_into()` in the
handler; server types module, absent from the staged sources). A
syntactically invalid or schema-violating document is the recoverable
`InvalidContent` parse failure; a structurally malformed call (malformed
required fields) is the `BadRequest` protocol violation. -/
def tryIntoStandardJson (request : VerifyVyperStandardJsonRequest) :
    Except StandardJsonParseError StandardJsonVerificationRequest :=
  if isValidJson request.input = false then
    Except.error (StandardJsonParseError.invalidContent request.input)
  else
    match parseDisplayBytes request.bytecode with
    | none => Except.error (StandardJsonParseError.badRequest "invalid bytecode")
    | some bytes =>
      match BytecodeType.from_i32 request.bytecode_type with
      | none =>
        Except.error (StandardJsonParseError.badRequest "invalid bytecode type")
      | some bt =>
        match parseCompilerVersion request.compiler_version with
        | none =>
          Except.error
            (StandardJsonParseError.badRequest "invalid compiler version")
        | some version =>
          Except.ok
            { bytecode := bytes
              bytecode_type := bt
              compiler_version := version
              content := { input := request.input } }

/-! ## The handler embeddings -/

/-- One call of `metrics::count_verify_contract` with its four labels. -/
structure MetricsCall where
  chain_id : String
  language : String
  status : String
  route : String
deriving DecidableEq, Repr

/-- What a handler call produces at the transport boundary: an Ok proto
response, a transport error status, or a panic (no response at all). -/
inductive HandlerResult
  | ok (response : VerifyResponse)
  | err (status : GrpcStatus)
  | panicked
deriving DecidableEq, Repr

/-- A handler call's observable outcome: its result plus the metrics calls it
made and whether it emitted the internal-error log line (which carries the
request id). -/
structure HandlerOutcome where
  result : HandlerResult
  metrics : List MetricsCall
  loggedInternalError : Bool
deriving DecidableEq, Repr

/-- The `verify_multi_part` handler of `vyper_verifier.rs`. The inner library
pipeline `vyper::multi_part::verify` is not part of the staged sources and is
taken as the `verify` parameter. The `tracing::debug!` statement evaluates
its fields only when debug-level events are enabled for the callsite — the
`debugEnabled` parameter — so its `BytecodeType::from_i32(..).unwrap()`
panics on an invalid enum integer exactly when debug logging is enabled.
Otherwise the handler extracts the chain id, converts the request, runs the
pipeline, and maps the outcome exactly as the source's match does. -/
def verify_multi_part (debugEnabled : Bool)
    (verify : MultiPartVerificationRequest →
      Except VerificationError VerificationSuccess)
    (request : VerifyVyperMultiPartRequest) : HandlerOutcome :=
  let chain_id := (request.metadata.bind (fun m => m.chain_id)).getD ""
  if debugEnabled = true ∧ BytecodeType.from_i32 request.bytecode_type = none
  then
    { result := HandlerResult.panicked, metrics := [],
      loggedInternalError := false }
  else
    match tryIntoMultiPart request with
    | Except.error status =>
      { result := HandlerResult.err status, metrics := [],
        loggedInternalError := false }
    | Except.ok verificationRequest =>
      match verify verificationRequest with
      | Except.ok verificationSuccess =>
        let response := VerifyResponseWrapper.ok verificationSuccess
        { result := HandlerResult.ok response
          metrics :=
            [{ chain_id := chain_id, language := "vyper",
               status := response.status.as_str_name, route := "multi-part" }]
          loggedInternalError := false }
      | Except.error e =>
        match e with
        | VerificationError.compilation _
        | VerificationError.noMatchingContracts
        | VerificationError.compilerVersionMismatch _ =>
          let response := VerifyResponseWrapper.err e.to_string
          { result := HandlerResult.ok response
            metrics :=
              [{ chain_id := chain_id, language := "vyper",
                 status := response.status.as_str_name, route := "multi-part" }]
            loggedInternalError := false }
        | VerificationError.initialization _
        | VerificationError.versionNotFound _ =>
          { result := HandlerResult.err (GrpcStatus.invalidArgument e.to_string)
            metrics := []
            loggedInternalError := false }
        | VerificationError.internal message =>
          { result := HandlerResult.err (GrpcStatus.internal message)
            metrics := []
            loggedInternalError := true }

/-- The `verify_standard_json` handler of `vyper_verifier.rs`. The inner
library pipeline `vyper::standard_json::verify` is taken as the `verify`
parameter. The `tracing::debug!` statement evaluates its fields only when
debug-level events are enabled for the callsite — the `debugEnabled`
parameter — so its `BytecodeType::from_i32(..).unwrap()` panics on an
invalid enum integer exactly when debug logging is enabled. Otherwise the
parse of the request wrapper distinguishes the recoverable invalid-content
failure (returned at once as a Failed response, before the metrics call)
from the bad-request protocol violation (an invalid-argument status); a
parsed request runs the pipeline and maps the outcome exactly as the
source's match does. -/
def verify_standard_json (debugEnabled : Bool)
    (verify : StandardJsonVerificationRequest →
      Except VerificationError VerificationSuccess)
    (request : VerifyVyperStandardJsonRequest) : HandlerOutcome :=
  let chain_id := (request.metadata.bind (fun m => m.chain_id)).getD ""
  if debugEnabled = true ∧ BytecodeType.from_i32 request.bytecode_type = none
  then
    { result := HandlerResult.panicked, metrics := [],
      loggedInternalError := false }
  else
    match tryIntoStandardJson request with
    | Except.error (StandardJsonParseError.invalidContent details) =>
      let response :=
        VerifyResponseWrapper.err
          (StandardJsonParseError.invalidContent details).to_string
      { result := HandlerResult.ok response, metrics := [],
        loggedInternalError := false }
    | Except.error (StandardJsonParseError.badRequest details) =>
      { result :=
          HandlerResult.err
            (GrpcStatus.invalidArgument
              (StandardJsonParseError.badRequest details).to_string)
        metrics := []
        loggedInternalError := false }
    | Except.ok verificationRequest =>
      match verify verificationRequest with
      | Except.ok verificationSuccess =>
        let response := VerifyResponseWrapper.ok verificationSuccess
        { result := HandlerResult.ok response
          metrics :=
            [{ chain_id := chain_id, language := "vyper",
               status := response.status.as_str_name,
               route := "standard-json" }]
          loggedInternalError := false }
      | Except.error e =>
        match e with
        | VerificationError.compilation _
        | VerificationError.noMatchingContracts
        | VerificationError.compilerVersionMismatch _ =>
          let response := VerifyResponseWrapper.err e.to_string
          { result := HandlerResult.ok response
            metrics :=
              [{ chain_id := chain_id, language := "vyper",
                 status := response.status.as_str_name,
                 route := "standard-json" }]
            loggedInternalError := false }
        | VerificationError.initialization _
        | VerificationError.versionNotFound _ =>
          { result := HandlerResult.err (GrpcStatus.invalidArgument e.to_string)
            metrics := []
            loggedInternalError := false }
        | VerificationError.internal message =>
          { result := HandlerResult.err (GrpcStatus.internal message)
            metrics := []
            loggedInternalError := true }

/-! ## Service construction -/

/-- The fetcher settings variants matched in `VyperVerifierService::new`. -/
inductive FetcherSettings
  | listFetcher (list_url : String)
  | s3 (config : String)
deriving DecidableEq, Repr

/-- The vyper settings read by `VyperVerifierService::new`. -/
structure VyperSettings where
  compilers_dir : String
  fetcher : FetcherSettings
  refresh_versions_schedule : String
deriving DecidableEq, Repr

/-- Modelled from the spec: the `ListFetcher` the constructor builds — the
version catalog fetched from the remote manifest at startup. -/
structure ListFetcher where
  versions : List CompilerVersion
deriving DecidableEq, Repr

/-- The `VyperVerifierService::new` constructor of `vyper_verifier.rs`:
rejects S3 fetcher settings, then builds the list fetcher — whose
construction (`ListFetcher::new`, library code absent from the staged
sources, failing when the manifest source is unreachable or malformed) is
taken as the `fetcherInit` parameter and propagated with the source's `?` —
and on success wraps the compilers into the client. -/
def VyperVerifierService.new (settings : VyperSettings)
    (fetcherInit : String → Except String ListFetcher) :
    Except String VyperVerifierService :=
  match settings.fetcher with
  | FetcherSettings.s3 _ => Except.error "S3 fetcher for vyper not supported"
  | FetcherSettings.listFetcher list_url =>
    match fetcherInit list_url with
    | Except.error e => Except.error e
    | Except.ok fetcher =>
      Except.ok { client := { compilers := { versions := fetcher.versions } } }

/-! ## The version-selection step of the library pipeline -/

/-- Modelled from the spec: the library verification pipeline reduced to its
version-selection step — "Exact version string absent from the catalog ⇒
fail fast with `VersionNotFoundError` before attempting any compilation";
otherwise the compile-and-match stage runs. The second component counts the
compilation attempts made. -/
def pipelineVerify {C : Type} (catalog : List CompilerVersion)
    (compileAndMatch : CompilerVersion →
      Except VerificationError VerificationSuccess)
    (request : VerificationRequest C) :
    Except VerificationError VerificationSuccess × Nat :=
  if request.compiler_version ∈ catalog then
    (compileAndMatch request.compiler_version, 1)
  else
    (Except.error
      (VerificationError.versionNotFound request.compiler_version.toStr), 0)

/-! ## The compiler pool permit gate -/

/-- Modelled from the spec: the state of the pool's counting permit gate (the
tokio semaphore handed to `Compilers::new` by the constructor) together with
the verification tasks, counted by phase: waiting for a permit, holding a
permit while resolving the binary, running the native subprocess, and
finished (permit released). -/
structure PoolState where
  freePermits : Nat
  waiting : Nat
  holding : Nat
  running : Nat
deriving DecidableEq, Repr

/-- Modelled from the spec: the transitions of the permit gate — a request
arrives; a waiting task acquires one permit (only when one is free); a
holding task spawns its subprocess; a running task's subprocess exits
(success, compile error or crash) and releases the permit; a holding task is
cancelled before spawning and releases the permit. -/
inductive PoolStep : PoolState → PoolState → Prop
  | arrive (f w h r : Nat) : PoolStep ⟨f, w, h, r⟩ ⟨f, w + 1, h, r⟩
  | acquire (f w h r : Nat) : PoolStep ⟨f + 1, w + 1, h, r⟩ ⟨f, w, h + 1, r⟩
  | spawn (f w h r : Nat) : PoolStep ⟨f, w, h + 1, r⟩ ⟨f, w, h, r + 1⟩
  | finish (f w h r : Nat) : PoolStep ⟨f, w, h, r + 1⟩ ⟨f + 1, w, h, r⟩
  | cancel (f w h r : Nat) : PoolStep ⟨f, w, h + 1, r⟩ ⟨f + 1, w, h, r⟩

/-- The pool states reachable from the initial state with `n` configured
permits and no tasks. -/
inductive PoolReachable (n : Nat) : PoolState → Prop
  | init : PoolReachable n ⟨n, 0, 0, 0⟩
  | step {s s' : PoolState} :
    PoolReachable n s → PoolStep s s' → PoolReachable n s'

/-! ## Helper lemmas -/

/-- Every error of the multi-part wrapper conversion is an invalid-argument
status. -/
lemma tryIntoMultiPart_error_shape (request : VerifyVyperMultiPartRequest)
    (st : GrpcStatus) (h : tryIntoMultiPart request = Except.error st) :
    ∃ m, st = GrpcStatus.invalidArgument m := by
  unfold tryIntoMultiPart at h
  repeat' split at h
  all_goals simp_all
  all_goals exact ⟨_, h.symm⟩

/-- The multi-part wrapper conversion never reads the request metadata. -/
lemma tryIntoMultiPart_metadata_free (bytecode : String) (bytecode_type : Int)
    (compiler_version : String) (evm_version : Option String)
    (source_files interfaces : List (String × String))
    (md1 md2 : Option VerificationMetadata) :
    tryIntoMultiPart
        ⟨bytecode, bytecode_type, compiler_version, evm_version,
          source_files, interfaces, md1⟩ =
      tryIntoMultiPart
        ⟨bytecode, bytecode_type, compiler_version, evm_version,
          source_files, interfaces, md2⟩ := rfl

/-- The standard-json wrapper conversion never reads the request metadata. -/
lemma tryIntoStandardJson_metadata_free (bytecode : String)
    (bytecode_type : Int) (compiler_version : String) (input : String)
    (md1 md2 : Option VerificationMetadata) :
    tryIntoStandardJson
        ⟨bytecode, bytecode_type, compiler_version, input, md1⟩ =
      tryIntoStandardJson
        ⟨bytecode, bytecode_type, compiler_version, input, md2⟩ := rfl

/-- Every reachable pool state keeps the permit accounting: free permits plus
permits held by holding and running tasks equal the configured count. -/
lemma pool_permit_invariant (n : Nat) :
    ∀ s : PoolState, PoolReachable n s →
      s.freePermits + s.holding + s.running = n := by
  intro s h
  induction h with
  | init => rfl
  | step _ hstep ih => cases hstep <;> simp_all <;> omega

/-! ## Claim theorems -/

/-- Claim C1: for a standard-json request, an invalid-content parse failure
(syntactically invalid or schema-violating document) yields an Ok response
with status Failed carrying the descriptive error message, while a
bad-request parse failure (structurally malformed call) is rejected outright
as a transport-level invalid-argument error; the two outcomes are distinct
and never collapsed. -/
theorem c1_standard_json_parse_failure_split :
    (∀ (debugEnabled : Bool)
        (verify : StandardJsonVerificationRequest →
        Except VerificationError VerificationSuccess)
        (request : VerifyVyperStandardJsonRequest) (d : String),
      BytecodeType.from_i32 request.bytecode_type ≠ none →
      tryIntoStandardJson request =
        Except.error (StandardJsonParseError.invalidContent d) →
      verify_standard_json debugEnabled verify request =
        { result :=
            HandlerResult.ok
              { message := (StandardJsonParseError.invalidContent d).to_string
                status := VerifyStatus.failure
                result := none }
          metrics := []
          loggedInternalError := false }) ∧
    (∀ (debugEnabled : Bool)
        (verify : StandardJsonVerificationRequest →
        Except VerificationError VerificationSuccess)
        (request : VerifyVyperStandardJsonRequest) (d : String),
      BytecodeType.from_i32 request.bytecode_type ≠ none →
      tryIntoStandardJson request =
        Except.error (StandardJsonParseError.badRequest d) →
      verify_standard_json debugEnabled verify request =
        { result :=
            HandlerResult.err
              (GrpcStatus.invalidArgument
                (StandardJsonParseError.badRequest d).to_string)
          metrics := []
          loggedInternalError := false }) := by
  constructor
  · intro debugEnabled verify request d hbt htry
    have hg : ¬(debugEnabled = true ∧
        BytecodeType.from_i32 request.bytecode_type = none) :=
      fun hc => hbt hc.2
    simp [verify_standard_json, hg, htry, VerifyResponseWrapper.err]
  · intro debugEnabled verify request d hbt htry
    have hg : ¬(debugEnabled = true ∧
        BytecodeType.from_i32 request.bytecode_type = none) :=
      fun hc => hbt hc.2
    simp [verify_standard_json, hg, htry]

/-- Claim C1 witness: a concrete standard-json request whose input is not
valid JSON gets an Ok response with status Failed and the descriptive
message. -/
theorem c1_witness_invalid_content :
    verify_standard_json true
        (fun _ => Except.error VerificationError.noMatchingContracts)
        ⟨"0x00", 1, "0.3.7", "not json", none⟩ =
      { result :=
          HandlerResult.ok
            { message :=
                (StandardJsonParseError.invalidContent "not json").to_string
              status := VerifyStatus.failure
              result := none }
        metrics := []
        loggedInternalError := false } :=
  c1_standard_json_parse_failure_split.1 true
    (fun _ => Except.error VerificationError.noMatchingContracts)
    ⟨"0x00", 1, "0.3.7", "not json", none⟩ "not json" (by decide) rfl

/-- Claim C2: a verification request (multi-part or standard-json) whose
processing ends in `VerificationError::Internal` gets a transport-level
internal status carrying the error message, the internal-error log line with
the request id is emitted, and no Ok response (and no metrics call) is
produced. -/
theorem c2_internal_error_is_transport_failure :
    (∀ (debugEnabled : Bool)
        (verify : MultiPartVerificationRequest →
        Except VerificationError VerificationSuccess)
        (request : VerifyVyperMultiPartRequest)
        (vreq : MultiPartVerificationRequest) (msg : String),
      BytecodeType.from_i32 request.bytecode_type ≠ none →
      tryIntoMultiPart request = Except.ok vreq →
      verify vreq = Except.error (VerificationError.internal msg) →
      verify_multi_part debugEnabled verify request =
        { result := HandlerResult.err (GrpcStatus.internal msg), metrics := [],
          loggedInternalError := true }) ∧
    (∀ (debugEnabled : Bool)
        (verify : StandardJsonVerificationRequest →
        Except VerificationError VerificationSuccess)
        (request : VerifyVyperStandardJsonRequest)
        (vreq : StandardJsonVerificationRequest) (msg : String),
      BytecodeType.from_i32 request.bytecode_type ≠ none →
      tryIntoStandardJson request = Except.ok vreq →
      verify vreq = Except.error (VerificationError.internal msg) →
      verify_standard_json debugEnabled verify request =
        { result := HandlerResult.err (GrpcStatus.internal msg), metrics := [],
          loggedInternalError := true }) := by
  constructor
  · intro debugEnabled verify request vreq msg hbt htry hverify
    have hg : ¬(debugEnabled = true ∧
        BytecodeType.from_i32 request.bytecode_type = none) :=
      fun hc => hbt hc.2
    simp [verify_multi_part, hg, htry, hverify]
  · intro debugEnabled verify request vreq msg hbt htry hverify
    have hg : ¬(debugEnabled = true ∧
        BytecodeType.from_i32 request.bytecode_type = none) :=
      fun hc => hbt hc.2
    simp [verify_standard_json, hg, htry, hverify]

/-- Claim C2 witness: a concrete multi-part request whose pipeline ends in an
internal error gets the internal transport status and the internal-error log
line. -/
theorem c2_witness_internal_error :
    verify_multi_part true
        (fun _ => Except.error (VerificationError.internal "io error"))
        ⟨"0x00", 1, "0.3.7", none, [], [], none⟩ =
      { result := HandlerResult.err (GrpcStatus.internal "io error")
        metrics := []
        loggedInternalError := true } :=
  c2_internal_error_is_transport_failure.1 true
    (fun _ => Except.error (VerificationError.internal "io error"))
    ⟨"0x00", 1, "0.3.7", none, [], [], none⟩
    ⟨[0], BytecodeType.creationInput, ⟨0, 3, 7⟩, ⟨[], [], none⟩⟩
    "io error" (by decide) rfl rfl

/-- Claim C3: a verification request naming an exact compiler version absent
from the catalog gets a transport-level invalid-argument error — not an Ok
response — and the pipeline makes zero compilation attempts for it. -/
theorem c3_version_not_found_fail_fast
    (debugEnabled : Bool)
    (catalog : List CompilerVersion)
    (compileAndMatch : CompilerVersion →
      Except VerificationError VerificationSuccess)
    (request : VerifyVyperMultiPartRequest)
    (vreq : MultiPartVerificationRequest)
    (hbt : BytecodeType.from_i32 request.bytecode_type ≠ none)
    (htry : tryIntoMultiPart request = Except.ok vreq)
    (habsent : vreq.compiler_version ∉ catalog) :
    verify_multi_part debugEnabled
        (fun r => (pipelineVerify catalog compileAndMatch r).1) request =
      { result :=
          HandlerResult.err
            (GrpcStatus.invalidArgument
              (VerificationError.versionNotFound
                vreq.compiler_version.toStr).to_string)
        metrics := []
        loggedInternalError := false } ∧
    (pipelineVerify catalog compileAndMatch vreq).2 = 0 := by
  have hpipe : pipelineVerify catalog compileAndMatch vreq =
      (Except.error
        (VerificationError.versionNotFound vreq.compiler_version.toStr), 0) := by
    simp [pipelineVerify, habsent]
  constructor
  · have hg : ¬(debugEnabled = true ∧
        BytecodeType.from_i32 request.bytecode_type = none) :=
      fun hc => hbt hc.2
    simp [verify_multi_part, hg, htry, hpipe, VerificationError.to_string]
  · simp [hpipe]

/-- Claim C3 witness: a concrete request for version 9.9.9 against a catalog
holding only 0.3.7 is rejected as invalid-argument with zero compilation
attempts. -/
theorem c3_witness_absent_version :
    verify_multi_part true
        (fun r =>
          (pipelineVerify [⟨0, 3, 7⟩]
            (fun _ => Except.error VerificationError.noMatchingContracts)
            r).1)
        ⟨"0x00", 1, "9.9.9", none, [], [], none⟩ =
      { result :=
          HandlerResult.err
            (GrpcStatus.invalidArgument
              (VerificationError.versionNotFound
                (⟨9, 9, 9⟩ : CompilerVersion).toStr).to_string)
        metrics := []
        loggedInternalError := false } ∧
    (pipelineVerify [⟨0, 3, 7⟩]
        (fun _ => Except.error VerificationError.noMatchingContracts)
        (⟨[0], BytecodeType.creationInput, ⟨9, 9, 9⟩,
          ⟨[], [], none⟩⟩ : MultiPartVerificationRequest)).2 = 0 :=
  c3_version_not_found_fail_fast true [⟨0, 3, 7⟩]
    (fun _ => Except.error VerificationError.noMatchingContracts)
    ⟨"0x00", 1, "9.9.9", none, [], [], none⟩
    ⟨[0], BytecodeType.creationInput, ⟨9, 9, 9⟩, ⟨[], [], none⟩⟩
    (by decide) rfl (by decide)

/-- Claim C4: a verification request (multi-part or standard-json) whose
processing ends in a compilation error, no matching contracts, or a compiler
version mismatch gets an Ok response with status Failed carrying the error
message — never a transport-level error status. -/
theorem c4_match_failures_are_failed_responses :
    (∀ (debugEnabled : Bool)
        (verify : MultiPartVerificationRequest →
        Except VerificationError VerificationSuccess)
        (request : VerifyVyperMultiPartRequest)
        (vreq : MultiPartVerificationRequest) (e : VerificationError),
      BytecodeType.from_i32 request.bytecode_type ≠ none →
      tryIntoMultiPart request = Except.ok vreq →
      verify vreq = Except.error e →
      ((∃ d, e = VerificationError.compilation d) ∨
        e = VerificationError.noMatchingContracts ∨
        (∃ d, e = VerificationError.compilerVersionMismatch d)) →
      (verify_multi_part debugEnabled verify request).result =
        HandlerResult.ok
          { message := e.to_string, status := VerifyStatus.failure,
            result := none }) ∧
    (∀ (debugEnabled : Bool)
        (verify : StandardJsonVerificationRequest →
        Except VerificationError VerificationSuccess)
        (request : VerifyVyperStandardJsonRequest)
        (vreq : StandardJsonVerificationRequest) (e : VerificationError),
      BytecodeType.from_i32 request.bytecode_type ≠ none →
      tryIntoStandardJson request = Except.ok vreq →
      verify vreq = Except.error e →
      ((∃ d, e = VerificationError.compilation d) ∨
        e = VerificationError.noMatchingContracts ∨
        (∃ d, e = VerificationError.compilerVersionMismatch d)) →
      (verify_standard_json debugEnabled verify request).result =
        HandlerResult.ok
          { message := e.to_string, status := VerifyStatus.failure,
            result := none }) := by
  constructor
  · intro debugEnabled verify request vreq e hbt htry hverify hcase
    have hg : ¬(debugEnabled = true ∧
        BytecodeType.from_i32 request.bytecode_type = none) :=
      fun hc => hbt hc.2
    rcases hcase with ⟨d, rfl⟩ | rfl | ⟨d, rfl⟩ <;>
      simp [verify_multi_part, hg, htry, hverify, VerifyResponseWrapper.err]
  · intro debugEnabled verify request vreq e hbt htry hverify hcase
    have hg : ¬(debugEnabled = true ∧
        BytecodeType.from_i32 request.bytecode_type = none) :=
      fun hc => hbt hc.2
    rcases hcase with ⟨d, rfl⟩ | rfl | ⟨d, rfl⟩ <;>
      simp [verify_standard_json, hg, htry, hverify, VerifyResponseWrapper.err]

/-- Claim C4 witness: a concrete multi-part request whose pipeline finds no
matching contract gets an Ok response with status Failed. -/
theorem c4_witness_no_matching_contracts :
    (verify_multi_part true
        (fun _ => Except.error VerificationError.noMatchingContracts)
        ⟨"0x00", 1, "0.3.7", none, [], [], none⟩).result =
      HandlerResult.ok
        { message := VerificationError.noMatchingContracts.to_string
          status := VerifyStatus.failure
          result := none } :=
  c4_match_failures_are_failed_responses.1 true
    (fun _ => Except.error VerificationError.noMatchingContracts)
    ⟨"0x00", 1, "0.3.7", none, [], [], none⟩
    ⟨[0], BytecodeType.creationInput, ⟨0, 3, 7⟩, ⟨[], [], none⟩⟩
    VerificationError.noMatchingContracts
    (by decide) rfl rfl (Or.inr (Or.inl rfl))

/-- Claim C5: an initialization failure is surfaced at startup — a failing
manifest fetcher makes `VyperVerifierService::new` return the error, so no
service instance exists — and after construction the internal system-failure
status arises only from the Internal error variant, a runtime Initialization
outcome being answered as an invalid-argument client error instead. -/
theorem c5_initialization_fatal_at_startup :
    (∀ (settings : VyperSettings)
        (fetcherInit : String → Except String ListFetcher)
        (url e : String),
      settings.fetcher = FetcherSettings.listFetcher url →
      fetcherInit url = Except.error e →
      VyperVerifierService.new settings fetcherInit = Except.error e) ∧
    (∀ (debugEnabled : Bool)
        (verify : MultiPartVerificationRequest →
        Except VerificationError VerificationSuccess)
        (request : VerifyVyperMultiPartRequest) (msg : String),
      (verify_multi_part debugEnabled verify request).result =
        HandlerResult.err (GrpcStatus.internal msg) →
      ∃ vreq, tryIntoMultiPart request = Except.ok vreq ∧
        verify vreq = Except.error (VerificationError.internal msg)) ∧
    (∀ (debugEnabled : Bool)
        (verify : MultiPartVerificationRequest →
        Except VerificationError VerificationSuccess)
        (request : VerifyVyperMultiPartRequest)
        (vreq : MultiPartVerificationRequest) (d : String),
      BytecodeType.from_i32 request.bytecode_type ≠ none →
      tryIntoMultiPart request = Except.ok vreq →
      verify vreq = Except.error (VerificationError.initialization d) →
      (verify_multi_part debugEnabled verify request).result =
        HandlerResult.err
          (GrpcStatus.invalidArgument
            (VerificationError.initialization d).to_string)) := by
  refine ⟨?_, ?_, ?_⟩
  · intro settings fetcherInit url e hf hinit
    unfold VyperVerifierService.new
    rw [hf]
    simp [hinit]
  · intro debugEnabled verify request msg h
    by_cases hg : debugEnabled = true ∧
        BytecodeType.from_i32 request.bytecode_type = none
    · simp [verify_multi_part, hg] at h
    · rcases htry : tryIntoMultiPart request with st | vreq
      · rcases tryIntoMultiPart_error_shape request st htry with ⟨m, rfl⟩
        simp [verify_multi_part, hg, htry] at h
      · rcases hv : verify vreq with e | s
        · rcases e with d | _ | d | d | v | m <;>
            simp [verify_multi_part, hg, htry, hv] at h
          exact ⟨vreq, rfl, by rw [hv, h]⟩
        · simp [verify_multi_part, hg, htry, hv] at h
  · intro debugEnabled verify request vreq d hbt htry hv
    have hg : ¬(debugEnabled = true ∧
        BytecodeType.from_i32 request.bytecode_type = none) :=
      fun hc => hbt hc.2
    simp [verify_multi_part, hg, htry, hv]

/-- Claim C5 witness: a concrete settings value whose manifest fetcher fails
to initialize makes the constructor return that error. -/
theorem c5_witness_startup_failure :
    VyperVerifierService.new
        ⟨"/compilers", FetcherSettings.listFetcher "http://manifest",
          "0 0 * * * * *"⟩
        (fun _ => Except.error "manifest unreachable") =
      Except.error "manifest unreachable" :=
  c5_initialization_fatal_at_startup.1
    ⟨"/compilers", FetcherSettings.listFetcher "http://manifest",
      "0 0 * * * * *"⟩
    (fun _ => Except.error "manifest unreachable")
    "http://manifest" "manifest unreachable" rfl rfl

/-- Claim C6: two verification requests (multi-part or standard-json) that
are identical except in their attached chain/address metadata produce the
same handler result — match result, status and error variant alike; the
metadata is informational only and never influences matching. -/
theorem c6_metadata_informational_only :
    (∀ (debugEnabled : Bool)
        (verify : MultiPartVerificationRequest →
        Except VerificationError VerificationSuccess)
        (bytecode : String) (bytecode_type : Int) (compiler_version : String)
        (evm_version : Option String)
        (source_files interfaces : List (String × String))
        (md1 md2 : Option VerificationMetadata),
      (verify_multi_part debugEnabled verify
          ⟨bytecode, bytecode_type, compiler_version, evm_version,
            source_files, interfaces, md1⟩).result =
        (verify_multi_part debugEnabled verify
          ⟨bytecode, bytecode_type, compiler_version, evm_version,
            source_files, interfaces, md2⟩).result) ∧
    (∀ (debugEnabled : Bool)
        (verify : StandardJsonVerificationRequest →
        Except VerificationError VerificationSuccess)
        (bytecode : String) (bytecode_type : Int) (compiler_version : String)
        (input : String) (md1 md2 : Option VerificationMetadata),
      (verify_standard_json debugEnabled verify
          ⟨bytecode, bytecode_type, compiler_version, input, md1⟩).result =
        (verify_standard_json debugEnabled verify
          ⟨bytecode, bytecode_type, compiler_version, input, md2⟩).result) := by
  constructor
  · intro debugEnabled verify bytecode bytecode_type compiler_version
      evm_version source_files interfaces md1 md2
    by_cases hg : debugEnabled = true ∧
        BytecodeType.from_i32 bytecode_type = none
    · simp [verify_multi_part, hg]
    · rw [verify_multi_part, verify_multi_part]
      simp only [hg, if_false, ite_false, if_neg]
      rw [tryIntoMultiPart_metadata_free bytecode bytecode_type
        compiler_version evm_version source_files interfaces md1 md2]
      rcases htry : tryIntoMultiPart
          ⟨bytecode, bytecode_type, compiler_version, evm_version,
            source_files, interfaces, md2⟩ with st | vreq
      · simp
      · rcases hv : verify vreq with e | s
        · rcases e with d | _ | d | d | v | m <;> simp [hv]
        · simp [hv]
  · intro debugEnabled verify bytecode bytecode_type compiler_version input
      md1 md2
    by_cases hg : debugEnabled = true ∧
        BytecodeType.from_i32 bytecode_type = none
    · simp [verify_standard_json, hg]
    · rw [verify_standard_json, verify_standard_json]
      simp only [hg, if_false, ite_false, if_neg]
      rw [tryIntoStandardJson_metadata_free bytecode bytecode_type
        compiler_version input md1 md2]
      rcases htry : tryIntoStandardJson
          ⟨bytecode, bytecode_type, compiler_version, input, md2⟩ with pe | vreq
      · rcases pe with d | d <;> simp
      · rcases hv : verify vreq with e | s
        · rcases e with d | _ | d | d | v | m <;> simp [hv]
        · simp [hv]

/-- Claim C6 witness: a concrete request with no metadata and the same
request with chain id and contract address attached produce the same
result. -/
theorem c6_witness_two_metadatas :
    (verify_multi_part true
        (fun _ => Except.error VerificationError.noMatchingContracts)
        ⟨"0x00", 1, "0.3.7", none, [], [], none⟩).result =
      (verify_multi_part true
        (fun _ => Except.error VerificationError.noMatchingContracts)
        ⟨"0x00", 1, "0.3.7", none, [], [],
          some ⟨some "1", some "0xabcd"⟩⟩).result :=
  c6_metadata_informational_only.1 true
    (fun _ => Except.error VerificationError.noMatchingContracts)
    "0x00" 1 "0.3.7" none [] [] none (some ⟨some "1", some "0xabcd"⟩)

/-- Claim C7: `list_compiler_versions` returns exactly the catalog's known
version strings, rendered from a permutation of the catalog sorted
newest-first (descending by the total order on compiler versions). -/
theorem c7_list_compiler_versions_sorted (service : VyperVerifierService) :
    ∃ sorted : List CompilerVersion,
      (list_compiler_versions service).compiler_versions =
        sorted.map CompilerVersion.toStr ∧
      sorted.Perm service.client.compilers.versions ∧
      List.Sorted versionGe sorted :=
  ⟨List.insertionSort versionGe service.client.compilers.versions, rfl,
    List.perm_insertionSort _ _, List.sorted_insertionSort _ _⟩

/-- Claim C7 witness: the theorem applied to a concrete three-version
catalog. -/
theorem c7_witness_concrete_catalog :
    ∃ sorted : List CompilerVersion,
      (list_compiler_versions
          ⟨⟨⟨[⟨0, 3, 7⟩, ⟨0, 4, 0⟩, ⟨0, 3, 10⟩]⟩⟩⟩).compiler_versions =
        sorted.map CompilerVersion.toStr ∧
      sorted.Perm [⟨0, 3, 7⟩, ⟨0, 4, 0⟩, ⟨0, 3, 10⟩] ∧
      List.Sorted versionGe sorted :=
  c7_list_compiler_versions_sorted ⟨⟨⟨[⟨0, 3, 7⟩, ⟨0, 4, 0⟩, ⟨0, 3, 10⟩]⟩⟩⟩

/-- Claim C8: in every pool state reachable with `n` configured permits — a
compile acquires one permit before its subprocess is spawned and releases it
on every exit path — at most `n` compiler subprocesses run simultaneously. -/
theorem c8_at_most_n_subprocesses (n : Nat) (s : PoolState)
    (h : PoolReachable n s) : s.running ≤ n := by
  have := pool_permit_invariant n s h
  omega

/-- Claim C8 witness: with two permits, the state reached by one request
arriving, acquiring a permit and spawning its subprocess runs at most two
subprocesses. -/
theorem c8_witness_two_permits :
    (⟨1, 0, 0, 1⟩ : PoolState).running ≤ 2 :=
  c8_at_most_n_subprocesses 2 ⟨1, 0, 0, 1⟩
    (PoolReachable.step
      (PoolReachable.step
        (PoolReachable.step PoolReachable.init (PoolStep.arrive 2 0 0 0))
        (PoolStep.acquire 1 0 0 0))
      (PoolStep.spawn 1 0 0 0))

/-- Claim C9 counterexample: with debug-level logging disabled — the
`tracing::debug!` fields are then never evaluated — a concrete multi-part
request with the invalid bytecode_type integer 9 does not panic: it reaches
the wrapper conversion and gets an invalid-argument error status, contrary
to the claim that every such request panics instead of returning any
response or error status. -/
theorem c9_counterexample_debug_disabled :
    (verify_multi_part false
        (fun _ => Except.error VerificationError.noMatchingContracts)
        ⟨"0x00", 9, "0.3.7", none, [], [], none⟩).result =
      HandlerResult.err
        (GrpcStatus.invalidArgument "invalid bytecode type") ∧
    (verify_multi_part false
        (fun _ => Except.error VerificationError.noMatchingContracts)
        ⟨"0x00", 9, "0.3.7", none, [], [], none⟩).result ≠
      HandlerResult.panicked := by
  constructor
  · rfl
  · decide

/-- Claim C9 as amended: the debug-log unwrap of `BytecodeType::from_i32` is
evaluated only when debug-level logging is enabled for the callsite. When it
is enabled, a request (multi-part or standard-json) whose bytecode_type
integer is not a valid enum value makes the handler panic, producing neither
a response nor an error status (and no metrics call); when debug logging is
disabled the handler never panics — the request proceeds to the wrapper
conversion and gets an ordinary response or error status. -/
theorem c9_invalid_bytecode_type_panics :
    (∀ (verify : MultiPartVerificationRequest →
        Except VerificationError VerificationSuccess)
        (request : VerifyVyperMultiPartRequest),
      BytecodeType.from_i32 request.bytecode_type = none →
      verify_multi_part true verify request =
        { result := HandlerResult.panicked, metrics := [],
          loggedInternalError := false }) ∧
    (∀ (verify : StandardJsonVerificationRequest →
        Except VerificationError VerificationSuccess)
        (request : VerifyVyperStandardJsonRequest),
      BytecodeType.from_i32 request.bytecode_type = none →
      verify_standard_json true verify request =
        { result := HandlerResult.panicked, metrics := [],
          loggedInternalError := false }) ∧
    (∀ (verify : MultiPartVerificationRequest →
        Except VerificationError VerificationSuccess)
        (request : VerifyVyperMultiPartRequest),
      (verify_multi_part false verify request).result ≠
        HandlerResult.panicked) ∧
    (∀ (verify : StandardJsonVerificationRequest →
        Except VerificationError VerificationSuccess)
        (request : VerifyVyperStandardJsonRequest),
      (verify_standard_json false verify request).result ≠
        HandlerResult.panicked) := by
  refine ⟨?_, ?_, ?_, ?_⟩
  · intro verify request h
    simp [verify_multi_part, h]
  · intro verify request h
    simp [verify_standard_json, h]
  · intro verify request
    rcases htry : tryIntoMultiPart request with st | vreq
    · simp [verify_multi_part, htry]
    · rcases hv : verify vreq with e | s
      · rcases e with d | _ | d | d | v | m <;>
          simp [verify_multi_part, htry, hv]
      · simp [verify_multi_part, htry, hv]
  · intro verify request
    rcases htry : tryIntoStandardJson request with pe | vreq
    · rcases pe with d | d <;> simp [verify_standard_json, htry]
    · rcases hv : verify vreq with e | s
      · rcases e with d | _ | d | d | v | m <;>
          simp [verify_standard_json, htry, hv]
      · simp [verify_standard_json, htry, hv]

/-- Claim C9 witness: with debug logging enabled, a concrete multi-part
request with bytecode_type 9 panics. -/
theorem c9_witness_bytecode_type_nine :
    verify_multi_part true
        (fun _ => Except.error VerificationError.noMatchingContracts)
        ⟨"0x00", 9, "0.3.7", none, [], [], none⟩ =
      { result := HandlerResult.panicked, metrics := [],
        loggedInternalError := false } :=
  c9_invalid_bytecode_type_panics.1
    (fun _ => Except.error VerificationError.noMatchingContracts)
    ⟨"0x00", 9, "0.3.7", none, [], [], none⟩ rfl

/-- Claim C10: every Ok handler response is counted exactly once by the
verify-contract metrics counter, except the standard-json invalid-content
parse failure, which returns its Ok Failed response before the counter call
and so stays uncounted — the only uncounted Failed outcome. -/
theorem c10_metrics_once_except_invalid_content :
    (∀ (debugEnabled : Bool)
        (verify : MultiPartVerificationRequest →
        Except VerificationError VerificationSuccess)
        (request : VerifyVyperMultiPartRequest) (response : VerifyResponse),
      (verify_multi_part debugEnabled verify request).result =
        HandlerResult.ok response →
      (verify_multi_part debugEnabled verify request).metrics.length = 1) ∧
    (∀ (debugEnabled : Bool)
        (verify : StandardJsonVerificationRequest →
        Except VerificationError VerificationSuccess)
        (request : VerifyVyperStandardJsonRequest) (d : String),
      BytecodeType.from_i32 request.bytecode_type ≠ none →
      tryIntoStandardJson request =
        Except.error (StandardJsonParseError.invalidContent d) →
      (verify_standard_json debugEnabled verify request).result =
          HandlerResult.ok
            (VerifyResponseWrapper.err
              (StandardJsonParseError.invalidContent d).to_string) ∧
        (VerifyResponseWrapper.err
            (StandardJsonParseError.invalidContent d).to_string).status =
          VerifyStatus.failure ∧
        (verify_standard_json debugEnabled verify request).metrics = []) ∧
    (∀ (debugEnabled : Bool)
        (verify : StandardJsonVerificationRequest →
        Except VerificationError VerificationSuccess)
        (request : VerifyVyperStandardJsonRequest) (response : VerifyResponse),
      (verify_standard_json debugEnabled verify request).result =
        HandlerResult.ok response →
      (∀ d, tryIntoStandardJson request ≠
        Except.error (StandardJsonParseError.invalidContent d)) →
      (verify_standard_json debugEnabled verify request).metrics.length = 1) := by
  refine ⟨?_, ?_, ?_⟩
  · intro debugEnabled verify request response h
    by_cases hg : debugEnabled = true ∧
        BytecodeType.from_i32 request.bytecode_type = none
    · simp [verify_multi_part, hg] at h
    · rcases htry : tryIntoMultiPart request with st | vreq
      · simp [verify_multi_part, hg, htry] at h
      · rcases hv : verify vreq with e | s
        · rcases e with d | _ | d | d | v | m <;>
            simp [verify_multi_part, hg, htry, hv] at h ⊢
        · simp [verify_multi_part, hg, htry, hv]
  · intro debugEnabled verify request d hbt htry
    have hg : ¬(debugEnabled = true ∧
        BytecodeType.from_i32 request.bytecode_type = none) :=
      fun hc => hbt hc.2
    refine ⟨?_, rfl, ?_⟩ <;> simp [verify_standard_json, hg, htry]
  · intro debugEnabled verify request response h hnot
    by_cases hg : debugEnabled = true ∧
        BytecodeType.from_i32 request.bytecode_type = none
    · simp [verify_standard_json, hg] at h
    · rcases htry : tryIntoStandardJson request with pe | vreq
      · rcases pe with d | d
        · exact absurd htry (hnot d)
        · simp [verify_standard_json, hg, htry] at h
      · rcases hv : verify vreq with e | s
        · rcases e with d | _ | d | d | v | m <;>
            simp [verify_standard_json, hg, htry, hv] at h ⊢
        · simp [verify_standard_json, hg, htry, hv]

/-- Claim C10 witness: a concrete standard-json request with an unterminated
JSON document gets an Ok Failed response with no metrics call. -/
theorem c10_witness_uncounted_parse_failure :
    (verify_standard_json true
          (fun _ => Except.error VerificationError.noMatchingContracts)
          ⟨"0x00", 1, "0.3.7", "\x7b\x7b", none⟩).result =
        HandlerResult.ok
          (VerifyResponseWrapper.err
            (StandardJsonParseError.invalidContent "\x7b\x7b").to_string) ∧
      (VerifyResponseWrapper.err
          (StandardJsonParseError.invalidContent "\x7b\x7b").to_string).status =
        VerifyStatus.failure ∧
      (verify_standard_json true
          (fun _ => Except.error VerificationError.noMatchingContracts)
          ⟨"0x00", 1, "0.3.7", "\x7b\x7b", none⟩).metrics = [] :=
  c10_metrics_once_except_invalid_content.2.1 true
    (fun _ => Except.error VerificationError.noMatchingContracts)
    ⟨"0x00", 1, "0.3.7", "\x7b\x7b", none⟩ "\x7b\x7b" (by decide) rfl
